import Mathlib

/-!
Verification of the eve-ship-sprites asset pipeline.

Shallow embedding of the relevant parts of `src/render_ship.py` and
`src/copy_to_rebellion.py`.  Real-valued quantities of the fill-ratio
computation are modelled over `ℝ` (the Python code computes with floats;
the formulas are exact real formulas).  Bounding-box extents, rotation
angles in degrees and ship sizes are modelled over `ℚ`, which keeps the
orientation logic executable; the code only compares, swaps and copies
these values, so the choice of ordered field is immaterial.
-/

/-! ### Scale configuration constants (src/render_ship.py, module level)

Source names: `REFERENCE_SIZE_METERS`, `MIN_FILL_RATIO`, `MAX_FILL_RATIO`,
`SCALE_POWER`.  Renamed to camelCase here. -/

def referenceSizeMeters : ℝ := 75

def minFillRatio : ℝ := 0.85

def maxFillRatio : ℝ := 1.0

def scalePower : ℝ := 0.4

/-- Embedding of `calculate_fill_ratio` (src/render_ship.py lines 156-180).
`none` models the Python argument `None`. -/
noncomputable def calculate_fill_ratio (size_meters : Option ℝ) : ℝ :=
  match size_meters with
  | none => maxFillRatio
  | some s =>
    let normalized := s / referenceSizeMeters
    let scaled := normalized ^ scalePower
    let max_normalized := ((14000 : ℝ) / referenceSizeMeters) ^ scalePower
    let fill := minFillRatio +
      (maxFillRatio - minFillRatio) * (scaled - 1) / (max_normalized - 1)
    max minFillRatio (min maxFillRatio fill)

/-- The spec's `clamp(v, lo, hi)`. -/
noncomputable def clamp (v lo hi : ℝ) : ℝ := max lo (min hi v)

/-- Modelled from the spec's words (section 4.2): the power-law fill formula
with reference size `r = 75`, exponent `p = 0.4`, `sMax = 14000` and band
`[0.85, 1.0]`.  Kept separate from `calculate_fill_ratio` so that the code
can be compared against it. -/
noncomputable def spec_fill (s : ℝ) : ℝ :=
  let r : ℝ := 75
  let p : ℝ := 0.4
  let sMax : ℝ := 14000
  let minFill : ℝ := 0.85
  let maxFill : ℝ := 1.0
  let normalized := s / r
  let scaled := normalized ^ p
  let maxScaled := (sMax / r) ^ p
  let fill := minFill + (maxFill - minFill) * (scaled - 1) / (maxScaled - 1)
  clamp fill minFill maxFill

/-- Unfolding lemma: the value of `calculate_fill_ratio` on a known size. -/
theorem calculate_fill_ratio_some (s : ℝ) :
    calculate_fill_ratio (some s) =
      max minFillRatio (min maxFillRatio (minFillRatio +
        (maxFillRatio - minFillRatio) * ((s / referenceSizeMeters) ^ scalePower - 1) /
          (((14000 : ℝ) / referenceSizeMeters) ^ scalePower - 1))) := rfl

/-- The denominator's base `(14000/75)^0.4` exceeds 1. -/
theorem max_normalized_gt_one :
    1 < ((14000 : ℝ) / referenceSizeMeters) ^ scalePower := by
  rw [referenceSizeMeters, scalePower]
  rw [Real.one_lt_rpow_iff_of_pos (by norm_num)]
  left
  norm_num

/-- c1: for every size s > 0, `calculate_fill_ratio` computes exactly the
spec's power-law formula with r = 75, p = 0.4, sMax = 14000 and the band
[0.85, 1.0], clamped to that band. -/
theorem c1_fill_formula_matches_spec (s : ℝ) (_hs : 0 < s) :
    calculate_fill_ratio (some s) = spec_fill s := rfl

/-- Witness for `c1_fill_formula_matches_spec` at s = 75. -/
theorem c1_fill_formula_matches_spec_witness :
    (0 : ℝ) < 75 ∧ calculate_fill_ratio (some 75) = spec_fill 75 :=
  ⟨by norm_num, c1_fill_formula_matches_spec 75 (by norm_num)⟩

/-- c2: `calculate_fill_ratio` is monotone non-decreasing in the size, and its
value always lies in the configured band [minFillRatio, maxFillRatio]
= [0.85, 1.0]. -/
theorem c2_fill_monotone_and_bounded :
    (∀ s1 s2 : ℝ, 0 < s1 → s1 ≤ s2 →
      calculate_fill_ratio (some s1) ≤ calculate_fill_ratio (some s2)) ∧
    (∀ s : ℝ, 0 < s →
      minFillRatio ≤ calculate_fill_ratio (some s) ∧
      calculate_fill_ratio (some s) ≤ maxFillRatio) := by
  have hK : 0 < ((14000 : ℝ) / referenceSizeMeters) ^ scalePower - 1 :=
    sub_pos.mpr max_normalized_gt_one
  constructor
  · intro s1 s2 h0 h12
    rw [calculate_fill_ratio_some, calculate_fill_ratio_some]
    have hr : (0 : ℝ) < referenceSizeMeters := by rw [referenceSizeMeters]; norm_num
    have hdiv : s1 / referenceSizeMeters ≤ s2 / referenceSizeMeters := by
      exact div_le_div_of_nonneg_right h12 hr.le
    have hpow : (s1 / referenceSizeMeters) ^ scalePower ≤
        (s2 / referenceSizeMeters) ^ scalePower :=
      Real.rpow_le_rpow (by positivity) hdiv (by rw [scalePower]; norm_num)
    refine max_le_max le_rfl (min_le_min le_rfl ?_)
    have hc : (0 : ℝ) ≤ maxFillRatio - minFillRatio := by
      rw [maxFillRatio, minFillRatio]; norm_num
    have : (maxFillRatio - minFillRatio) * ((s1 / referenceSizeMeters) ^ scalePower - 1) ≤
        (maxFillRatio - minFillRatio) * ((s2 / referenceSizeMeters) ^ scalePower - 1) :=
      mul_le_mul_of_nonneg_left (by linarith) hc
    have hdivle := div_le_div_of_nonneg_right this hK.le
    linarith [hdivle]
  · intro s _hs
    rw [calculate_fill_ratio_some]
    refine ⟨le_max_left _ _, max_le ?_ (min_le_left _ _)⟩
    rw [minFillRatio, maxFillRatio]; norm_num

/-- Witness for `c2_fill_monotone_and_bounded` at s1 = 75, s2 = 150, s = 75. -/
theorem c2_fill_monotone_and_bounded_witness :
    ((0 : ℝ) < 75 ∧ (75 : ℝ) ≤ 150 ∧
      calculate_fill_ratio (some 75) ≤ calculate_fill_ratio (some 150)) ∧
    (minFillRatio ≤ calculate_fill_ratio (some 75) ∧
      calculate_fill_ratio (some 75) ≤ maxFillRatio) :=
  ⟨⟨by norm_num, by norm_num,
    c2_fill_monotone_and_bounded.1 75 150 (by norm_num) (by norm_num)⟩,
   c2_fill_monotone_and_bounded.2 75 (by norm_num)⟩

/-- c7: when the size is unknown (`None`), `calculate_fill_ratio` returns
exactly `maxFillRatio`, which is configured to 1 (the ship fills the frame). -/
theorem c7_unknown_size_fills_frame :
    calculate_fill_ratio none = maxFillRatio ∧ maxFillRatio = 1 := by
  constructor
  · rfl
  · rw [maxFillRatio]; norm_num

/-! ### Orientation logic (src/render_ship.py lines 359-464)

The Blender object is observed by the code only through its axis-aligned
bounding-box dimensions (`obj.dimensions`), so the object state is modelled
as its extents.  A rotation step (`obj.rotation_euler := ...` followed by
`transform_apply`) is recorded as an Euler angle triple `(rx, ry, rz)` in
degrees; a 90° rotation about a coordinate axis permutes the bounding-box
extents by swapping the two other components, and a 180° rotation leaves
them unchanged. -/

/-- Bounding-box extents of the mesh (`obj.dimensions`). -/
structure Extents where
  x : ℚ
  y : ℚ
  z : ℚ
deriving DecidableEq

/-- One applied rotation step, as Euler angles in degrees. -/
abbrev EulerAngles := ℚ × ℚ × ℚ

/-- Effect on the extents of a 90° (or -90°) rotation about the Y axis. -/
def swapXZ (e : Extents) : Extents := ⟨e.z, e.y, e.x⟩

/-- Effect on the extents of a 90° rotation about the X axis. -/
def swapYZ (e : Extents) : Extents := ⟨e.x, e.z, e.y⟩

/-- Effect on the extents of a 90° rotation about the Z axis. -/
def swapXY (e : Extents) : Extents := ⟨e.y, e.x, e.z⟩

/-- The axis-correction step of `orient_for_topdown` (lines 435-455): the
stable sort of `[(x,'x'),(y,'y'),(z,'z')]` picks the earliest axis attaining
the minimum; X smallest rotates 90° about Y, Y smallest rotates 90° about X,
Z smallest applies nothing.  Returns the applied rotations and the extents
afterwards. -/
def orientStep1 (e : Extents) : List EulerAngles × Extents :=
  if e.x ≤ e.y ∧ e.x ≤ e.z then ([(0, 90, 0)], swapXZ e)
  else if e.y ≤ e.z then ([(90, 0, 0)], swapYZ e)
  else ([], e)

/-- Embedding of `orient_for_topdown` (lines 424-464): the axis correction,
then a 90° yaw about Z when the resulting width (X) exceeds the resulting
forward length (Y).  Returns the applied rotations and the final extents. -/
def orient_for_topdown (e : Extents) : List EulerAngles × Extents :=
  if (orientStep1 e).2.x > (orientStep1 e).2.y then
    ((orientStep1 e).1 ++ [(0, 0, 90)], swapXY (orientStep1 e).2)
  else orientStep1 e

/-- A per-item orientation override (one entry of ship_orientations.json as
read by `orient_with_override`): `none` models an absent dict key, mirroring
`override.get(...)`. -/
structure Override where
  rx : Option ℚ := none
  ry : Option ℚ := none
  rz : Option ℚ := none
  axis : Option String := none
  flip : Bool := false
  rotation : Option ℚ := none
deriving DecidableEq

/-- The axis-based rotation of the semantic override path (lines 389-401):
`'x'` rotates -90° about Y, `'y'` rotates 90° about X, anything else (the
default `'z'` included) applies nothing. -/
def semAxisRots (upAxis : String) : List EulerAngles :=
  if upAxis = "x" then [(0, -90, 0)]
  else if upAxis = "y" then [(90, 0, 0)]
  else []

/-- Extents after the axis-based rotation of the semantic override path. -/
def semAxisExtents (upAxis : String) (e : Extents) : Extents :=
  if upAxis = "x" then swapXZ e
  else if upAxis = "y" then swapYZ e
  else e

/-- Embedding of `orient_with_override` (lines 359-421): when any of the
explicit angle keys `rx`, `ry`, `rz` is present, the single explicit Euler
rotation is applied and the function returns; otherwise the semantic path
runs: axis rotation, a 90° yaw when the post-rotation width exceeds the
forward length (lines 403-407), the 180° flip, and the fine-tune yaw when
nonzero.  Returns the list of applied rotations in order. -/
def orient_with_override (e : Extents) (ov : Override) : List EulerAngles :=
  if ov.rx.isSome ∨ ov.ry.isSome ∨ ov.rz.isSome then
    [(ov.rx.getD 0, ov.ry.getD 0, ov.rz.getD 0)]
  else
    semAxisRots (ov.axis.getD "z")
      ++ (if (semAxisExtents (ov.axis.getD "z") e).x >
              (semAxisExtents (ov.axis.getD "z") e).y then [(0, 0, 90)] else [])
      ++ (if ov.flip then [(0, 0, 180)] else [])
      ++ (if ov.rotation.getD 0 ≠ 0 then [(0, 0, ov.rotation.getD 0)] else [])

/-- Computation of `orientStep1` when X is the (stable-sort) smallest axis. -/
theorem orientStep1_x (e : Extents) (h1 : e.x ≤ e.y) (h2 : e.x ≤ e.z) :
    orientStep1 e = ([(0, 90, 0)], swapXZ e) := by
  simp [orientStep1, h1, h2]

/-- Computation of `orientStep1` when Y is the (stable-sort) smallest axis. -/
theorem orientStep1_y (e : Extents) (h1 : e.y < e.x) (h2 : e.y ≤ e.z) :
    orientStep1 e = ([(90, 0, 0)], swapYZ e) := by
  rw [orientStep1, if_neg (fun hc => absurd hc.1 (not_le.mpr h1)), if_pos h2]

/-- Computation of `orientStep1` when Z is the strictly smallest axis. -/
theorem orientStep1_z (e : Extents) (h1 : e.z < e.x) (h2 : e.z < e.y) :
    orientStep1 e = ([], e) := by
  rw [orientStep1, if_neg (fun hc => absurd hc.2 (not_le.mpr h1)),
    if_neg (not_le.mpr h2)]

/-- After `orient_for_topdown`, with pairwise-distinct extents, the smallest
dimension sits on Z (vertical) and the largest on Y (forward). -/
theorem orient_pose (e : Extents) (hxy : e.x ≠ e.y) (hxz : e.x ≠ e.z)
    (hyz : e.y ≠ e.z) :
    (orient_for_topdown e).2.z = min e.x (min e.y e.z) ∧
    (orient_for_topdown e).2.y = max e.x (max e.y e.z) := by
  rcases lt_or_gt_of_ne hxy with h1 | h1
  · rcases lt_or_gt_of_ne hxz with h2 | h2
    · -- x smallest
      rw [orient_for_topdown, orientStep1_x e h1.le h2.le]
      rcases lt_or_gt_of_ne hyz with h3 | h3 <;>
        split_ifs <;> simp_all [swapXZ, swapXY, min_def, max_def] <;> split_ifs <;>
        first
          | rfl
          | (refine ⟨?_, ?_⟩ <;> first | rfl | linarith)
    · rcases lt_or_gt_of_ne hyz with h3 | h3
      · -- y < z < x < y: impossible
        exact absurd (lt_trans (lt_trans h3 h2) h1) (lt_irrefl _)
      · -- z < x < y and z < y: z smallest
        rw [orient_for_topdown, orientStep1_z e h2 h3]
        split_ifs <;> simp_all [swapXY, min_def, max_def] <;> split_ifs <;>
          first
            | rfl
            | (refine ⟨?_, ?_⟩ <;> first | rfl | linarith)
  · rcases lt_or_gt_of_ne hyz with h3 | h3
    · -- y < x and y < z: y smallest
      rw [orient_for_topdown, orientStep1_y e h1 h3.le]
      split_ifs <;> simp_all [swapYZ, swapXY, min_def, max_def] <;> split_ifs <;>
        first
          | rfl
          | (refine ⟨?_, ?_⟩ <;> first | rfl | linarith)
    · -- z < y < x: z smallest
      rw [orient_for_topdown, orientStep1_z e (lt_trans h3 h1) h3]
      split_ifs <;> simp_all [swapXY, min_def, max_def] <;> split_ifs <;>
        first
          | rfl
          | (refine ⟨?_, ?_⟩ <;> first | rfl | linarith)

/-- c4: with pairwise-distinct extents, `orient_for_topdown` follows the fixed
decision table (X smallest: 90° about Y; Y smallest: 90° about X; Z smallest:
no correction; then one 90° yaw about Z exactly when the post-correction width
exceeds the forward length); the final pose puts the smallest dimension on the
vertical axis and the largest on the forward axis; and extents (120, 40, 20)
get no axis correction and a 90° yaw. -/
theorem c4_orient_decision_table (e : Extents) (hxy : e.x ≠ e.y)
    (hxz : e.x ≠ e.z) (hyz : e.y ≠ e.z) :
    ((e.x < e.y ∧ e.x < e.z →
        (orient_for_topdown e).1 =
          (0, 90, 0) ::
            (if (swapXZ e).x > (swapXZ e).y then [((0 : ℚ), 0, 90)] else [])) ∧
     (e.y < e.x ∧ e.y < e.z →
        (orient_for_topdown e).1 =
          (90, 0, 0) ::
            (if (swapYZ e).x > (swapYZ e).y then [((0 : ℚ), 0, 90)] else [])) ∧
     (e.z < e.x ∧ e.z < e.y →
        (orient_for_topdown e).1 =
          (if e.x > e.y then [((0 : ℚ), 0, 90)] else []))) ∧
    ((orient_for_topdown e).2.z = min e.x (min e.y e.z) ∧
     (orient_for_topdown e).2.y = max e.x (max e.y e.z)) ∧
    orient_for_topdown ⟨120, 40, 20⟩ = ([(0, 0, 90)], ⟨40, 120, 20⟩) := by
  refine ⟨⟨?_, ?_, ?_⟩, orient_pose e hxy hxz hyz, by decide⟩
  · rintro ⟨h1, h2⟩
    rw [orient_for_topdown, orientStep1_x e h1.le h2.le]
    split_ifs <;> simp
  · rintro ⟨h1, h2⟩
    rw [orient_for_topdown, orientStep1_y e h1 h2.le]
    split_ifs <;> simp
  · rintro ⟨h1, h2⟩
    rw [orient_for_topdown, orientStep1_z e h1 h2]
    split_ifs <;> simp

/-- Witness for `c4_orient_decision_table` at extents (120, 40, 20). -/
theorem c4_orient_decision_table_witness :
    ((120 : ℚ) ≠ 40 ∧ (120 : ℚ) ≠ 20 ∧ (40 : ℚ) ≠ 20) ∧
    orient_for_topdown ⟨120, 40, 20⟩ = ([(0, 0, 90)], ⟨40, 120, 20⟩) :=
  ⟨by decide,
    (c4_orient_decision_table ⟨120, 40, 20⟩ (by decide) (by decide)
      (by decide)).2.2⟩

/-- c8: when the strictly smallest dimension already lies on Z and the width
does not exceed the forward length, `orient_for_topdown` applies no rotation
and returns the extents unchanged, so re-applying the rule to an
already-normalized mesh is a no-op.  (With a tie between Z and another axis
the stable sort picks the other axis and the code does rotate; the spec
explicitly leaves tie behaviour implementation-defined, so the hypotheses are
strict.) -/
theorem c8_already_normalized_noop (e : Extents) (hzx : e.z < e.x)
    (hzy : e.z < e.y) (hxy : e.x ≤ e.y) :
    orient_for_topdown e = ([], e) := by
  rw [orient_for_topdown, orientStep1_z e hzx hzy]
  rw [if_neg (not_lt.mpr hxy)]

/-- Witness for `c8_already_normalized_noop` at extents (2, 3, 1). -/
theorem c8_already_normalized_noop_witness :
    ((1 : ℚ) < 2 ∧ (1 : ℚ) < 3 ∧ (2 : ℚ) ≤ 3) ∧
    orient_for_topdown ⟨2, 3, 1⟩ = ([], ⟨2, 3, 1⟩) :=
  ⟨by decide, c8_already_normalized_noop ⟨2, 3, 1⟩ (by decide) (by decide)
    (by decide)⟩

/-- c5: when any explicit angle key (rx, ry, rz) is present — even with value
zero — `orient_with_override` applies exactly the single explicit Euler
rotation with absent fields defaulting to 0, independently of the mesh's
extents, and with the semantic fields (axis, flip, rotation) ignored. -/
theorem c5_explicit_angles_take_precedence (e e' : Extents) (ov : Override)
    (h : ov.rx.isSome ∨ ov.ry.isSome ∨ ov.rz.isSome) :
    orient_with_override e ov = [(ov.rx.getD 0, ov.ry.getD 0, ov.rz.getD 0)] ∧
    orient_with_override e ov = orient_with_override e' ov ∧
    (∀ (ax : Option String) (fl : Bool) (rot : Option ℚ),
      orient_with_override e ⟨ov.rx, ov.ry, ov.rz, ax, fl, rot⟩ =
        [(ov.rx.getD 0, ov.ry.getD 0, ov.rz.getD 0)]) := by
  refine ⟨?_, ?_, ?_⟩
  · rw [orient_with_override, if_pos h]
  · rw [orient_with_override, if_pos h, orient_with_override, if_pos h]
  · intro ax fl rot
    rw [orient_with_override, if_pos h]

/-- Witness for `c5_explicit_angles_take_precedence`: an override with
rx = 0 present, on two different meshes. -/
theorem c5_explicit_angles_take_precedence_witness :
    ((Option.some (0 : ℚ)).isSome ∨ (Option.none (α := ℚ)).isSome ∨
      (Option.none (α := ℚ)).isSome) ∧
    orient_with_override ⟨2, 1, 1⟩ ⟨some 0, none, none, some "y", true, some 45⟩ =
      [(0, 0, 0)] :=
  ⟨by decide,
    (c5_explicit_angles_take_precedence ⟨2, 1, 1⟩ ⟨9, 9, 9⟩
      ⟨some 0, none, none, some "y", true, some 45⟩ (by decide)).1⟩

/-- c3 counterexample: the semantic override path does read the mesh's
bounding-box extents — the same override applied to meshes with extents
(2, 1, 1) and (1, 2, 1) produces different rotation lists. -/
theorem c3_counterexample :
    orient_with_override ⟨2, 1, 1⟩ {} ≠ orient_with_override ⟨1, 2, 1⟩ {} := by
  decide

/-- c3 (amended): for a semantic override (no explicit angle key),
`orient_with_override` replaces the automatic smallest-axis rule and applies,
in order, the axis rotation named by the override, then a 90° yaw exactly when
the mesh's post-axis-rotation width exceeds its forward length (the one step
that depends on the bounding-box extents), then the 180° flip if set, then the
fine-tune yaw if nonzero. -/
theorem c3_semantic_override_characterization (e : Extents) (ov : Override)
    (hx : ov.rx = none) (hy : ov.ry = none) (hz : ov.rz = none) :
    orient_with_override e ov =
      semAxisRots (ov.axis.getD "z")
        ++ (if (semAxisExtents (ov.axis.getD "z") e).x >
                (semAxisExtents (ov.axis.getD "z") e).y
            then [(0, 0, 90)] else [])
        ++ (if ov.flip then [(0, 0, 180)] else [])
        ++ (if ov.rotation.getD 0 ≠ 0
            then [(0, 0, ov.rotation.getD 0)] else []) := by
  rw [orient_with_override, if_neg]
  simp [hx, hy, hz]

/-- Witness for `c3_semantic_override_characterization` at extents (2, 1, 1)
with the empty override. -/
theorem c3_semantic_override_characterization_witness :
    (Override.rx {} = none ∧ Override.ry {} = none ∧ Override.rz {} = none) ∧
    orient_with_override ⟨2, 1, 1⟩ {} =
      semAxisRots ((Override.axis {}).getD "z")
        ++ (if (semAxisExtents ((Override.axis {}).getD "z") ⟨2, 1, 1⟩).x >
                (semAxisExtents ((Override.axis {}).getD "z") ⟨2, 1, 1⟩).y
            then [(0, 0, 90)] else [])
        ++ (if Override.flip {} then [(0, 0, 180)] else [])
        ++ (if (Override.rotation {}).getD 0 ≠ 0
            then [(0, 0, (Override.rotation {}).getD 0)] else []) :=
  ⟨⟨rfl, rfl, rfl⟩,
    c3_semantic_override_characterization ⟨2, 1, 1⟩ {} rfl rfl rfl⟩

/-! ### Ship size lookup (src/render_ship.py lines 133-154)

`ship_sizes.json` is a dict of hierarchical identifiers to sizes in meters,
with the reserved key `'_class_defaults'` holding a nested dict of class
names to default sizes.  It is modelled as a pair of association lists:
the ordinary entries and the class-defaults dict.  Python's `str.split('/')`
is modelled by `pySplit` over the string's character list (equivalent for a
one-character separator, and reducible by the kernel). -/

/-- Helper of `pySplit`: split a character list at a separator, accumulating
the current piece in reverse. -/
def splitCharAux (sep : Char) : List Char → List Char → List (List Char)
  | [], acc => [acc.reverse]
  | c :: cs, acc =>
    if c = sep then acc.reverse :: splitCharAux sep cs []
    else splitCharAux sep cs (c :: acc)

/-- Python's `s.split(sep)` for a single-character separator: `""` gives
`[""]`, and adjacent separators give empty pieces. -/
def pySplit (sep : Char) (s : String) : List String :=
  (splitCharAux sep s.data []).map List.asString

/-- The contents of `ship_sizes.json`: exact entries plus the reserved
`'_class_defaults'` table. -/
structure SizesData where
  entries : List (String × ℚ)
  classDefaults : List (String × ℚ)

/-- Embedding of `get_ship_size` (lines 133-154): `None` (empty dict or empty
key) guard, then the exact match, then the class default keyed by the second
path component when the key has at least two components, else `None`. -/
def get_ship_size (ship_key : String) (sizes : SizesData) : Option ℚ :=
  if (sizes.entries = [] ∧ sizes.classDefaults = []) ∨ ship_key = "" then none
  else
    match sizes.entries.lookup ship_key with
    | some v => some v
    | none =>
      if 2 ≤ (pySplit '/' ship_key).length then
        sizes.classDefaults.lookup ((pySplit '/' ship_key).getD 1 "")
      else none

/-- c6: `get_ship_size` resolves by precedence — an exact entry wins;
otherwise, with at least two path components, the class default stored under
the second component decides; otherwise the size is unknown (`none`).  In
particular "amarr/frigate/punisher" with no exact entry and a "frigate" class
default of 300 resolves to 300. -/
theorem c6_size_lookup_precedence (k : String) (sz : SizesData) (hk : k ≠ "") :
    (∀ v : ℚ, sz.entries.lookup k = some v → get_ship_size k sz = some v) ∧
    (sz.entries.lookup k = none → 2 ≤ (pySplit '/' k).length →
      get_ship_size k sz = sz.classDefaults.lookup ((pySplit '/' k).getD 1 "")) ∧
    (sz.entries.lookup k = none → (pySplit '/' k).length < 2 →
      get_ship_size k sz = none) ∧
    get_ship_size "amarr/frigate/punisher" ⟨[], [("frigate", 300)]⟩ = some 300 := by
  refine ⟨?_, ?_, ?_, by decide⟩
  · intro v hv
    have hne : ¬((sz.entries = [] ∧ sz.classDefaults = []) ∨ k = "") := by
      rintro (⟨he, _⟩ | he)
      · rw [he] at hv; simp at hv
      · exact hk he
    unfold get_ship_size
    rw [if_neg hne, hv]
  · intro hnone hlen
    by_cases hg : (sz.entries = [] ∧ sz.classDefaults = []) ∨ k = ""
    · rcases hg with ⟨he, hcd⟩ | he
      · unfold get_ship_size
        rw [if_pos (Or.inl ⟨he, hcd⟩), hcd]
        simp
      · exact absurd he hk
    · unfold get_ship_size
      rw [if_neg hg, hnone, if_pos hlen]
  · intro hnone hlen
    by_cases hg : (sz.entries = [] ∧ sz.classDefaults = []) ∨ k = ""
    · unfold get_ship_size
      rw [if_pos hg]
    · unfold get_ship_size
      rw [if_neg hg, hnone, if_neg (not_le.mpr hlen)]

/-- Witness for `c6_size_lookup_precedence` at the claim's example table. -/
theorem c6_size_lookup_precedence_witness :
    ("amarr/frigate/punisher" : String) ≠ "" ∧
    get_ship_size "amarr/frigate/punisher" ⟨[], [("frigate", 300)]⟩ = some 300 :=
  ⟨by decide,
    (c6_size_lookup_precedence "amarr/frigate/punisher" ⟨[], [("frigate", 300)]⟩
      (by decide)).2.2.2⟩

/-! ### Command-line entry point of the renderer (src/render_ship.py
lines 521-540)

`main` is modelled on the argument list that follows the `--` separator; the
filesystem is a predicate, and Python's `int()` a parse function returning
`none` when it would raise `ValueError` (the code computes the resolution at
line 536, before the existence check at line 538, so a parse failure aborts
first).  The outcome distinguishes error exits (all with Python exit status 1,
nonzero) from reaching the rendering work. -/

/-- Outcome of the renderer's `main`: an error exit before any rendering, or
the call to `render_ship` with the resolved arguments. -/
inductive MainResult where
  | exitWithError (code : ℤ) (msg : String) : MainResult
  | rendered (input output : String) (resolution : ℤ) : MainResult
deriving DecidableEq

/-- The usage line printed before `sys.exit(1)` when arguments are missing. -/
def usageMsg : String :=
  "Usage: blender --background --python render_ship.py -- input.stl output.png [resolution]"

/-- The resolution of line 536: `int(argv[2])` when a third argument is
present, else the default 512. -/
def resolutionArg (args : List String) (pyParseInt : String → Option ℤ) :
    Option ℤ :=
  if 2 < args.length then pyParseInt (args.getD 2 "") else some 512

/-- Embedding of `main` (lines 530-540) after the `--` extraction: usage exit
on fewer than two arguments, resolution parsing, then the input-existence
check, then rendering. -/
def renderMain (args : List String) (fileExists : String → Bool)
    (pyParseInt : String → Option ℤ) : MainResult :=
  if args.length < 2 then .exitWithError 1 usageMsg
  else
    match resolutionArg args pyParseInt with
    | none => .exitWithError 1 "ValueError: invalid literal for int()"
    | some res =>
      if fileExists (args.getD 0 "") then
        .rendered (args.getD 0 "") (args.getD 1 "") res
      else
        .exitWithError 1 ("Error: Input file not found: " ++ args.getD 0 "")

/-- c9: whenever the input mesh path does not exist, `main` exits with status
1 (nonzero) and the not-found message, never reaching the rendering work; and
when the optional resolution argument is omitted the resolution is 512. -/
theorem c9_missing_input_and_default_resolution :
    (∀ (args : List String) (fe : String → Bool) (pyi : String → Option ℤ)
        (r : ℤ),
      2 ≤ args.length → resolutionArg args pyi = some r →
      fe (args.getD 0 "") = false →
      renderMain args fe pyi =
        .exitWithError 1 ("Error: Input file not found: " ++ args.getD 0 "")) ∧
    (∀ (args : List String) (pyi : String → Option ℤ),
      args.length = 2 → resolutionArg args pyi = some 512) := by
  constructor
  · intro args fe pyi r hlen hres hne
    unfold renderMain
    rw [if_neg (not_lt.mpr hlen), hres, hne]
    simp
  · intro args pyi hlen
    unfold resolutionArg
    rw [if_neg (by rw [hlen]; norm_num)]

/-- Witness for `c9_missing_input_and_default_resolution`: two arguments, a
filesystem on which nothing exists. -/
theorem c9_missing_input_and_default_resolution_witness :
    (2 ≤ (["ship.stl", "out.png"] : List String).length ∧
      resolutionArg ["ship.stl", "out.png"] (fun _ => none) = some 512) ∧
    renderMain ["ship.stl", "out.png"] (fun _ => false) (fun _ => none) =
      .exitWithError 1 "Error: Input file not found: ship.stl" ∧
    resolutionArg ["ship.stl", "out.png"] (fun _ => none) = some 512 :=
  ⟨⟨by decide, by decide⟩,
    c9_missing_input_and_default_resolution.1 ["ship.stl", "out.png"]
      (fun _ => false) (fun _ => none) 512 (by decide) (by decide) rfl,
    c9_missing_input_and_default_resolution.2 ["ship.stl", "out.png"]
      (fun _ => none) rfl⟩

/-! ### Sprite copying (src/copy_to_rebellion.py)

`main` scans the destination directory for `*.png` files, parses each stem
with `int()` (a `ValueError` is caught and the stem skipped), sorts the
resulting type IDs, and for each ID found in `TYPE_MAP` whose sprite is
located by `find_sprite` copies the sprite to `<type_id>.png` in the
destination directory.  The model takes the pre-existing destination file
stems, an abstract `find_sprite` (it walks the source tree), and an abstract
parse function standing for Python's `int()` on a stem (its full acceptance —
surrounding whitespace, underscore grouping, Unicode digits — is not
reproduced; the general theorems hold for every parse function, so in
particular for `int()` itself), and returns the performed copies as
(type ID, destination file name) pairs. -/

/-- Value of a nonempty all-digit character list, else `none`. -/
def digitsVal (cs : List Char) : Option Nat :=
  if cs ≠ [] ∧ cs.all Char.isDigit then
    some (cs.foldl (fun n c => 10 * n + (c.toNat - 48)) 0)
  else none

/-- A concrete parse function used to instantiate the theorems: it agrees
with Python's `int(s)` on plain optionally-signed ASCII-decimal literals
(so in particular on `"0583"` and `"583"`), with `none` for a rejected
string.  Python's `int()` accepts more (surrounding whitespace, underscores
between digits, Unicode decimal digits), which is why `copy_main` and the
general theorems abstract over the parse function instead of fixing this
one. -/
def pyInt (s : String) : Option ℤ :=
  match s.data with
  | '-' :: rest => (digitsVal rest).map (fun n => -(n : ℤ))
  | '+' :: rest => (digitsVal rest).map (fun n => (n : ℤ))
  | cs => (digitsVal cs).map (fun n => (n : ℤ))

/-- Insertion into a sorted list (helper of `sortLE`). -/
def insertLE (a : ℤ) : List ℤ → List ℤ
  | [] => [a]
  | b :: bs => if a ≤ b then a :: b :: bs else b :: insertLE a bs

/-- Python's `sorted` on integers (insertion sort; only the multiset of
elements matters for the claims). -/
def sortLE : List ℤ → List ℤ
  | [] => []
  | a :: as => insertLE a (sortLE as)

/-- Membership is preserved by `insertLE`. -/
theorem mem_insertLE {a b : ℤ} {l : List ℤ} :
    b ∈ insertLE a l ↔ b = a ∨ b ∈ l := by
  induction l with
  | nil => simp [insertLE]
  | cons c cs ih =>
    rw [insertLE]
    split_ifs <;> simp [ih] <;> tauto

/-- Membership is preserved by `sortLE`. -/
theorem mem_sortLE {a : ℤ} {l : List ℤ} : a ∈ sortLE l ↔ a ∈ l := by
  induction l with
  | nil => simp [sortLE]
  | cons b bs ih => simp [sortLE, mem_insertLE, ih]

/-- The static `TYPE_MAP` of src/copy_to_rebellion.py lines 13-134: EVE type
ID to (faction, ship class, ship name), in source order. -/
def TYPE_MAP : List (ℤ × String × String × String) :=
  [(583, "caldari", "frigate", "bantam"),
   (602, "caldari", "frigate", "kestrel"),
   (603, "caldari", "frigate", "merlin"),
   (605, "caldari", "frigate", "condor"),
   (608, "caldari", "frigate", "griffin"),
   (607, "caldari", "frigate", "heron"),
   (621, "caldari", "cruiser", "caracal"),
   (620, "caldari", "cruiser", "moa"),
   (622, "caldari", "cruiser", "osprey"),
   (623, "caldari", "cruiser", "blackbird"),
   (638, "caldari", "battleship", "raven"),
   (639, "caldari", "battleship", "scorpion"),
   (640, "caldari", "battleship", "rokh"),
   (24688, "caldari", "battlecruiser", "drake"),
   (16238, "caldari", "battlecruiser", "ferox"),
   (16236, "caldari", "battlecruiser", "nighthawk"),
   (589, "amarr", "frigate", "impairor"),
   (593, "amarr", "frigate", "magnate"),
   (594, "amarr", "frigate", "crucifier"),
   (596, "amarr", "frigate", "tormentor"),
   (597, "amarr", "frigate", "punisher"),
   (598, "amarr", "frigate", "inquisitor"),
   (590, "amarr", "frigate", "executioner"),
   (624, "amarr", "cruiser", "omen"),
   (625, "amarr", "cruiser", "maller"),
   (626, "amarr", "cruiser", "augoror"),
   (628, "amarr", "cruiser", "arbitrator"),
   (642, "amarr", "battleship", "apocalypse"),
   (643, "amarr", "battleship", "armageddon"),
   (644, "amarr", "battleship", "abaddon"),
   (24690, "amarr", "battlecruiser", "prophecy"),
   (16240, "amarr", "battlecruiser", "harbringer"),
   (585, "gallente", "frigate", "atron"),
   (586, "gallente", "frigate", "incursus"),
   (587, "gallente", "frigate", "tristan"),
   (588, "gallente", "frigate", "imicus"),
   (591, "gallente", "frigate", "maulus"),
   (592, "gallente", "frigate", "navitas"),
   (627, "gallente", "cruiser", "vexor"),
   (629, "gallente", "cruiser", "thorax"),
   (630, "gallente", "cruiser", "exequror"),
   (631, "gallente", "cruiser", "celestis"),
   (641, "gallente", "battleship", "dominix"),
   (645, "gallente", "battleship", "megathron"),
   (24696, "gallente", "battlecruiser", "myrmidon"),
   (16242, "gallente", "battlecruiser", "brutix"),
   (11371, "minmatar", "frigate", "wolf"),
   (11373, "minmatar", "frigate", "jaguar"),
   (11377, "minmatar", "cruiser", "vagabond"),
   (11381, "minmatar", "cruiser", "muninn"),
   (11387, "minmatar", "cruiser", "scythe"),
   (11400, "minmatar", "cruiser", "stabber"),
   (24694, "minmatar", "battleship", "tempest"),
   (24700, "minmatar", "battleship", "typhoon"),
   (11547, "minmatar", "battlecruiser", "cyclone"),
   (11566, "minmatar", "battlecruiser", "hurricane"),
   (11567, "minmatar", "battlecruiser", "sleipnir"),
   (11568, "minmatar", "battlecruiser", "claymore"),
   (11184, "amarr", "frigate", "vengeance"),
   (11186, "amarr", "frigate", "retribution"),
   (1944, "concord", "frigate", "pacifier"),
   (2006, "special_edition", "battleship", "marshall"),
   (3764, "pirate", "fighter", "Pirate_Fighter"),
   (20185, "ore", "frigate", "venture"),
   (23757, "pirate", "soe", "Stratios"),
   (23911, "pirate", "sanshas nation", "phantasm"),
   (23915, "pirate", "sanshas nation", "nightmare"),
   (24483, "pirate", "blood raiders", "Ashimmu"),
   (47269, "triglavian", "", "damavik"),
   (47466, "triglavian", "", "kikimora"),
   (35683, "caldari", "destroyer", "Jackdaw"),
   (35685, "minmatar", "destroyer", "svipul")]

/-- Embedding of `main` of src/copy_to_rebellion.py (lines 166-197): the
performed copies, each as (type ID, destination file name `<id>.png`), driven
by the stems of the pre-existing destination `*.png` files that `pyParse`
(standing for Python's `int()`) accepts. -/
def copy_main (pyParse : String → Option ℤ) (destStems : List String)
    (findSprite : String → String → String → Option String) :
    List (ℤ × String) :=
  (sortLE (destStems.filterMap pyParse)).filterMap (fun tid =>
    (TYPE_MAP.lookup tid).bind (fun fcn =>
      (findSprite fcn.1 fcn.2.1 fcn.2.2).map
        (fun _ => (tid, toString tid ++ ".png"))))

/-- Right cancellation of string append, through the character lists. -/
theorem string_append_right_cancel {a b c : String} (h : a ++ c = b ++ c) :
    a = b := by
  have hd : a.data ++ c.data = b.data ++ c.data := by
    rw [← String.data_append, ← String.data_append, h]
  exact String.ext (List.append_cancel_right hd)

/-- c10 counterexample: a pre-existing destination file "0583.png" is
processed (`int("0583") = 583`, an ID present in TYPE_MAP), but the copy is
written to "583.png" — a file that did not already exist — so the step does
not only overwrite pre-existing destination files. -/
theorem c10_counterexample :
    copy_main pyInt ["0583"] (fun _ _ _ => some "found") = [(583, "583.png")] ∧
    ("583.png" : String) ∉ ["0583"].map (fun s => s ++ ".png") := by
  constructor
  · decide
  · decide

/-- c10 (amended): for every parse function (Python's `int()` included),
every pre-existing stem list and every sprite locator —
(1) when every accepted stem is the canonical decimal representation of its
value, every copy targets a pre-existing destination file (the part the
counterexample forces to be conditional);
and unconditionally:
(2) every performed copy originates from a pre-existing stem that parses to
its type ID and targets the canonical name `<id>.png`;
(3) a type ID that no pre-existing stem parses to — in particular one merely
present in TYPE_MAP with no destination file — is never copied;
(4) every parsed ID with a TYPE_MAP entry and a located sprite is copied;
(5) given that canonical names always re-parse (true of `int()`), a
destination file whose stem the parse function rejects is never written
to. -/
theorem c10_copy_scope (pyParse : String → Option ℤ) (stems : List String)
    (f : String → String → String → Option String) :
    ((∀ s ∈ stems, ∀ n : ℤ, pyParse s = some n → toString n = s) →
      ∀ c ∈ copy_main pyParse stems f,
        c.2 ∈ stems.map (fun s => s ++ ".png")) ∧
    (∀ c ∈ copy_main pyParse stems f,
      ∃ s ∈ stems, pyParse s = some c.1 ∧ c.2 = toString c.1 ++ ".png") ∧
    (∀ tid : ℤ, (∀ s ∈ stems, pyParse s ≠ some tid) →
      ∀ c ∈ copy_main pyParse stems f, c.1 ≠ tid) ∧
    (∀ tid ∈ stems.filterMap pyParse, ∀ fcn, TYPE_MAP.lookup tid = some fcn →
      ∀ src, f fcn.1 fcn.2.1 fcn.2.2 = some src →
      (tid, toString tid ++ ".png") ∈ copy_main pyParse stems f) ∧
    ((∀ n : ℤ, pyParse (toString n) = some n) →
      ∀ s ∈ stems, pyParse s = none →
      ∀ c ∈ copy_main pyParse stems f, c.2 ≠ s ++ ".png") := by
  have key : ∀ c ∈ copy_main pyParse stems f,
      ∃ s ∈ stems, pyParse s = some c.1 ∧ c.2 = toString c.1 ++ ".png" := by
    intro c hc
    obtain ⟨tid, htid, hg⟩ := List.mem_filterMap.mp hc
    rw [Option.bind_eq_some] at hg
    obtain ⟨fcn, _hlk, hm⟩ := hg
    rw [Option.map_eq_some'] at hm
    obtain ⟨src, _hf, hceq⟩ := hm
    obtain ⟨s, hs, hps⟩ := List.mem_filterMap.mp (mem_sortLE.mp htid)
    subst hceq
    exact ⟨s, hs, hps, rfl⟩
  refine ⟨?_, key, ?_, ?_, ?_⟩
  · intro hcanon c hc
    obtain ⟨s, hs, hps, hc2⟩ := key c hc
    rw [hc2, hcanon s hs c.1 hps]
    exact List.mem_map.mpr ⟨s, hs, rfl⟩
  · intro tid htid c hc hceq
    obtain ⟨s, hs, hps, _⟩ := key c hc
    exact htid s hs (hceq ▸ hps)
  · intro tid htid fcn hlk src hf
    refine List.mem_filterMap.mpr ⟨tid, mem_sortLE.mpr htid, ?_⟩
    rw [hlk]
    simp [hf]
  · intro hround s hs hnone c hc hceq
    obtain ⟨s', hs', hps', hc2⟩ := key c hc
    have hts : toString c.1 = s :=
      string_append_right_cancel (by rw [← hc2, hceq])
    rw [← hts, hround c.1] at hnone
    exact Option.some_ne_none c.1 hnone

/-- Witness for `c10_copy_scope`, instantiated with the concrete parse
function on the canonical stem "583": the copy is performed and its
destination is among the pre-existing files. -/
theorem c10_copy_scope_witness :
    copy_main pyInt ["583"] (fun _ _ _ => some "found") = [(583, "583.png")] ∧
    (∀ c ∈ copy_main pyInt ["583"] (fun _ _ _ => some "found"),
      c.2 ∈ (["583"] : List String).map (fun s => s ++ ".png")) :=
  ⟨by decide,
    (c10_copy_scope pyInt ["583"] (fun _ _ _ => some "found")).1 (by
      intro s hs n hn
      rw [List.mem_singleton] at hs
      subst hs
      have h583 : pyInt "583" = some 583 := by decide
      rw [h583] at hn
      obtain rfl : (583 : ℤ) = n := Option.some.inj hn
      decide)⟩
